import Mathlib

/-!
Shallow embedding of the risk and position-lifecycle engine of the
monero-trading-bot repository (src/src/risk/position_sizing.py,
src/src/risk/stop_loss.py, src/src/risk/risk_manager.py).

Prices, capital and exposure are embedded as exact rationals (`ℚ`); the
Python floats' tolerance `ε` is therefore 0 in the model.  Wall-clock
values (`datetime.now()`) carry no decision logic except the calendar
date keying `daily_pnl`; the model fixes one "today", so `daily_pnl`
collapses to the single entry for the current date.
-/

/-- Side of a position: `'long'` / `'short'` strings in the source. -/
inductive PositionType where
  | long
  | short
deriving DecidableEq, Repr

/-- Signal type of the external signal object (`signal.signal_type.value`). -/
inductive SignalType where
  | buy
  | sell
  | hold
deriving DecidableEq, Repr

/-- The opaque signal consumed by `evaluate_trade_opportunity`; only
`signal_type` and `strength` are read by the risk module. -/
structure Signal where
  signal_type : SignalType
  strength : ℚ
deriving Repr

/-- The slice of the pandas DataFrame that the embedded calculation paths
read: the latest value of the `atr` column, `none` when the column is
absent or its last entry is null
(`'atr' not in df.columns or df['atr'].iloc[-1] is None`). -/
structure PriceFrame where
  atr : Option ℚ
deriving Repr

/-- `@dataclass PositionSize` of position_sizing.py. -/
structure PositionSize where
  units : ℚ
  dollar_amount : ℚ
  percent_of_portfolio : ℚ
  risk_amount : ℚ
  stop_loss_price : Option ℚ
deriving Repr

/-- Modelled from the spec: the `config` module imported by
position_sizing.py and stop_loss.py is not under src/.  Its fields are
the configuration bundle of the spec (§6): per-position cap,
portfolio-exposure cap, default ATR multiplier for stops, and the
risk/reward floor.  All theorems quantify over these values, so no
numeric default is assumed. -/
structure Config where
  max_position_size : ℚ
  max_portfolio_exposure : ℚ
  default_stop_loss_atr_multiplier : ℚ
  min_risk_reward_ratio : ℚ
deriving Repr

/-- Mutable state of `PositionSizer` (position_sizing.py lines 17-29). -/
structure PositionSizer where
  portfolio_value : ℚ
  max_position_size : ℚ
  max_portfolio_exposure : ℚ
  risk_per_trade : ℚ
  current_exposure : ℚ
deriving Repr

/-- `PositionSizer.__init__(portfolio_value)`: caps come from config,
`risk_per_trade` defaults to 0.02, exposure starts at 0. -/
def PositionSizer.mk0 (portfolio_value : ℚ) (cfg : Config) : PositionSizer :=
  { portfolio_value := portfolio_value
    max_position_size := cfg.max_position_size
    max_portfolio_exposure := cfg.max_portfolio_exposure
    risk_per_trade := 2/100
    current_exposure := 0 }

/-- `PositionSizer._fixed_fractional_sizing` (position_sizing.py 47-73). -/
def PositionSizer.fixed_fractional_sizing (s : PositionSizer)
    (signal_strength current_price stop_loss_price : ℚ) : PositionSize :=
  let risk_amount := s.portfolio_value * s.risk_per_trade * signal_strength
  let price_risk := |current_price - stop_loss_price| / current_price
  let dollar_amount := if 0 < price_risk then risk_amount / price_risk else 0
  let dollar_amount := min dollar_amount (s.portfolio_value * s.max_position_size)
  let available_exposure := (s.max_portfolio_exposure - s.current_exposure) * s.portfolio_value
  let dollar_amount := min dollar_amount available_exposure
  let units := if 0 < current_price then dollar_amount / current_price else 0
  let percent_of_portfolio :=
    if 0 < s.portfolio_value then dollar_amount / s.portfolio_value else 0
  { units := units
    dollar_amount := dollar_amount
    percent_of_portfolio := percent_of_portfolio
    risk_amount := risk_amount
    stop_loss_price := some stop_loss_price }

/-- `PositionSizer.calculate_position_size` at its default method
`'fixed_fractional'`, the method the risk manager calls. -/
def PositionSizer.calculate_position_size (s : PositionSizer)
    (signal_strength current_price stop_loss_price : ℚ) : PositionSize :=
  s.fixed_fractional_sizing signal_strength current_price stop_loss_price

/-- The `action` argument of `update_exposure`. -/
inductive ExposureAction where
  | add
  | remove
deriving DecidableEq, Repr

/-- `PositionSizer.update_exposure` (position_sizing.py 145-151):
adjust by `position_value / portfolio_value`, then clamp to [0, 1]. -/
def PositionSizer.update_exposure (s : PositionSizer) (position_value : ℚ)
    (action : ExposureAction) : PositionSizer :=
  let e :=
    match action with
    | .add => s.current_exposure + position_value / s.portfolio_value
    | .remove => s.current_exposure - position_value / s.portfolio_value
  { s with current_exposure := max 0 (min 1 e) }

/-- `PositionSizer.can_open_position` (position_sizing.py 153-155). -/
def PositionSizer.can_open_position (s : PositionSizer) (position_value : ℚ) : Bool :=
  decide (s.current_exposure + position_value / s.portfolio_value ≤ s.max_portfolio_exposure)

/-- State of `StopLossCalculator` (stop_loss.py 7-16). -/
structure StopLossCalculator where
  default_atr_multiplier : ℚ
  min_stop_distance : ℚ
  max_stop_distance : ℚ
deriving Repr

/-- `StopLossCalculator.__init__()` with the source's default distances
(1% and 5%); the multiplier comes from config. -/
def StopLossCalculator.mk0 (cfg : Config) : StopLossCalculator :=
  { default_atr_multiplier := cfg.default_stop_loss_atr_multiplier
    min_stop_distance := 1/100
    max_stop_distance := 5/100 }

/-- `StopLossCalculator._percentage_based_stop` (stop_loss.py 60-73)
with its default `percentage = 0.02`. -/
def StopLossCalculator.percentage_based_stop (entry_price : ℚ)
    (position_type : PositionType) : ℚ :=
  let stop_distance := entry_price * (2/100)
  match position_type with
  | .long => entry_price - stop_distance
  | .short => entry_price + stop_distance

/-- `StopLossCalculator._atr_based_stop` (stop_loss.py 36-58): ATR ×
multiplier, clamped to `[entry × min_stop_distance, entry × max_stop_distance]`,
falling back to the percentage stop when ATR is missing. -/
def StopLossCalculator.atr_based_stop (c : StopLossCalculator) (entry_price : ℚ)
    (df : PriceFrame) (position_type : PositionType) : ℚ :=
  match df.atr with
  | none => StopLossCalculator.percentage_based_stop entry_price position_type
  | some atr =>
    let stop_distance := atr * c.default_atr_multiplier
    let stop_distance :=
      max (entry_price * c.min_stop_distance)
        (min (entry_price * c.max_stop_distance) stop_distance)
    match position_type with
    | .long => entry_price - stop_distance
    | .short => entry_price + stop_distance

/-- `StopLossCalculator.calculate_stop_loss` at its default method
`'atr'`, the method the risk manager calls. -/
def StopLossCalculator.calculate_stop_loss (c : StopLossCalculator)
    (entry_price : ℚ) (df : PriceFrame) (position_type : PositionType) : ℚ :=
  c.atr_based_stop entry_price df position_type

/-- `StopLossCalculator.calculate_trailing_stop` (stop_loss.py 152-171)
with its default `trailing_percentage = 0.02`. -/
def StopLossCalculator.calculate_trailing_stop (current_price entry_price
    current_stop : ℚ) (position_type : PositionType) : ℚ :=
  match position_type with
  | .long =>
    let profit := (current_price - entry_price) / entry_price
    if 2/100 < profit then
      let new_stop := current_price * (1 - 2/100)
      max current_stop new_stop
    else current_stop
  | .short =>
    let profit := (entry_price - current_price) / entry_price
    if 2/100 < profit then
      let new_stop := current_price * (1 + 2/100)
      min current_stop new_stop
    else current_stop

/-- State of `TakeProfitCalculator` (stop_loss.py 174-181). -/
structure TakeProfitCalculator where
  min_risk_reward_ratio : ℚ
  default_target_multiplier : ℚ
deriving Repr

/-- `TakeProfitCalculator.__init__()`: ratio from config, multiplier 2.0. -/
def TakeProfitCalculator.mk0 (cfg : Config) : TakeProfitCalculator :=
  { min_risk_reward_ratio := cfg.min_risk_reward_ratio
    default_target_multiplier := 2 }

/-- `TakeProfitCalculator._risk_reward_based_target` (stop_loss.py 200-214). -/
def TakeProfitCalculator.risk_reward_based_target (c : TakeProfitCalculator)
    (entry_price stop_loss : ℚ) (position_type : PositionType) : ℚ :=
  let risk := |entry_price - stop_loss|
  let reward := risk * c.min_risk_reward_ratio
  match position_type with
  | .long => entry_price + reward
  | .short => entry_price - reward

/-- `TakeProfitCalculator.calculate_take_profit` at its default method
`'risk_reward'`, the method the risk manager calls. -/
def TakeProfitCalculator.calculate_take_profit (c : TakeProfitCalculator)
    (entry_price stop_loss : ℚ) (position_type : PositionType) : ℚ :=
  c.risk_reward_based_target entry_price stop_loss position_type

/-- One open position: the dict stored at `self.positions[position_id]`
(risk_manager.py 109-117).  `entry_time` carries no decision logic and
is omitted. -/
structure Position where
  entry_price : ℚ
  units : ℚ
  stop_loss : ℚ
  take_profit : ℚ
  position_type : PositionType
  unrealized_pnl : ℚ
deriving Repr

/-- The trade-result dict appended to `trade_history` on close
(risk_manager.py 188-200); wall-clock fields are omitted. -/
structure TradeResult where
  position_id : String
  entry_price : ℚ
  exit_price : ℚ
  units : ℚ
  position_type : PositionType
  pnl : ℚ
  return_pct : ℚ
  reason : String
deriving Repr

/-- Lookup in the position dict, modelled as an association list with
unique keys. -/
def dictLookup (k : String) : List (String × Position) → Option Position
  | [] => none
  | (k', v) :: rest => if k' = k then some v else dictLookup k rest

/-- `self.positions[position_id] = {...}`: replace the entry if the key
is present, append otherwise. -/
def dictInsert (k : String) (v : Position) :
    List (String × Position) → List (String × Position)
  | [] => [(k, v)]
  | (k', v') :: rest =>
    if k' = k then (k, v) :: rest else (k', v') :: dictInsert k v rest

/-- `del self.positions[position_id]`. -/
def dictRemove (k : String) :
    List (String × Position) → List (String × Position)
  | [] => []
  | (k', v') :: rest =>
    if k' = k then rest else (k', v') :: dictRemove k rest

/-- State of `RiskManager` (risk_manager.py 9-31).  `daily_pnl_today`
models `self.daily_pnl[datetime.now().date()]` under a fixed clock date:
`none` when today has no entry yet. -/
structure RiskManager where
  initial_capital : ℚ
  current_capital : ℚ
  max_drawdown : ℚ
  max_consecutive_losses : ℕ
  daily_loss_limit : ℚ
  position_sizer : PositionSizer
  stop_loss_calculator : StopLossCalculator
  take_profit_calculator : TakeProfitCalculator
  positions : List (String × Position)
  trade_history : List TradeResult
  daily_pnl_today : Option ℚ
  consecutive_losses : ℕ
  peak_capital : ℚ
deriving Repr

/-- `RiskManager.__init__` with the source's default limits
(`max_drawdown=0.2`, `max_consecutive_losses=5`, `daily_loss_limit=0.05`). -/
def RiskManager.mk0 (initial_capital : ℚ) (cfg : Config) : RiskManager :=
  { initial_capital := initial_capital
    current_capital := initial_capital
    max_drawdown := 2/10
    max_consecutive_losses := 5
    daily_loss_limit := 5/100
    position_sizer := PositionSizer.mk0 initial_capital cfg
    stop_loss_calculator := StopLossCalculator.mk0 cfg
    take_profit_calculator := TakeProfitCalculator.mk0 cfg
    positions := []
    trade_history := []
    daily_pnl_today := none
    consecutive_losses := 0
    peak_capital := initial_capital }

/-- `RiskManager._check_risk_limits` (risk_manager.py 84-98). -/
def RiskManager.check_risk_limits (rm : RiskManager) : Bool :=
  let current_drawdown := (rm.peak_capital - rm.current_capital) / rm.peak_capital
  if rm.max_drawdown < current_drawdown then false
  else if rm.max_consecutive_losses ≤ rm.consecutive_losses then false
  else
    match rm.daily_pnl_today with
    | some today_pnl =>
      let daily_loss := -today_pnl / rm.initial_capital
      if rm.daily_loss_limit < daily_loss then false else true
    | none => true

/-- Rejection reasons of `evaluate_trade_opportunity`; the source uses
reason strings (`'Risk limits exceeded'`, `'Exceeds portfolio exposure
limits'`, the formatted risk/reward message). -/
inductive RejectReason where
  | riskLimitsExceeded
  | exposureExceeded
  | rewardTooLow (ratio : ℚ)
deriving DecidableEq, Repr

/-- Result dict of `evaluate_trade_opportunity`: either
`{'approved': False, 'reason': ...}` or the approval payload. -/
inductive EvalResult where
  | rejected (reason : RejectReason)
  | approved (position_size : PositionSize) (stop_loss take_profit
      risk_reward_ratio : ℚ) (position_type : PositionType)
deriving Repr

/-- `RiskManager.evaluate_trade_opportunity` (risk_manager.py 33-82).
The source method assigns no attribute; the embedding threads the state
through explicitly and returns it alongside the result. -/
def RiskManager.evaluate_trade_opportunity (rm : RiskManager) (signal : Signal)
    (current_price : ℚ) (df : PriceFrame) : EvalResult × RiskManager :=
  if !rm.check_risk_limits then (.rejected .riskLimitsExceeded, rm)
  else
    let position_type :=
      if signal.signal_type = .buy then PositionType.long else PositionType.short
    let stop_loss :=
      rm.stop_loss_calculator.calculate_stop_loss current_price df position_type
    let take_profit :=
      rm.take_profit_calculator.calculate_take_profit current_price stop_loss
        position_type
    let position_size :=
      rm.position_sizer.calculate_position_size signal.strength current_price
        stop_loss
    if !rm.position_sizer.can_open_position position_size.dollar_amount then
      (.rejected .exposureExceeded, rm)
    else
      let risk_reward_ratio :=
        |take_profit - current_price| / |current_price - stop_loss|
      if risk_reward_ratio < rm.take_profit_calculator.min_risk_reward_ratio then
        (.rejected (.rewardTooLow risk_reward_ratio), rm)
      else
        (.approved position_size stop_loss take_profit risk_reward_ratio
          position_type, rm)

/-- `RiskManager.add_position` (risk_manager.py 100-120): store the
position dict under its id (overwriting any entry with the same id) and
add `entry_price * units` to the sizer's exposure.  The source performs
no duplicate-id check and signals no error. -/
def RiskManager.add_position (rm : RiskManager) (position_id : String)
    (entry_price units stop_loss take_profit : ℚ)
    (position_type : PositionType) : RiskManager :=
  let pos : Position :=
    { entry_price := entry_price
      units := units
      stop_loss := stop_loss
      take_profit := take_profit
      position_type := position_type
      unrealized_pnl := 0 }
  let position_value := entry_price * units
  { rm with
    positions := dictInsert position_id pos rm.positions
    position_sizer := rm.position_sizer.update_exposure position_value .add }

/-- `RiskManager.close_position` (risk_manager.py 172-223): returns
`{'error': 'Position not found'}` without touching state for an unknown
id; otherwise realizes the pnl, appends the trade, updates daily pnl,
capital, peak, streak and exposure, and removes the position. -/
def RiskManager.close_position (rm : RiskManager) (position_id : String)
    (exit_price : ℚ) (reason : String) :
    Except String TradeResult × RiskManager :=
  match dictLookup position_id rm.positions with
  | none => (.error "Position not found", rm)
  | some position =>
    let pnl :=
      match position.position_type with
      | .long => (exit_price - position.entry_price) * position.units
      | .short => (position.entry_price - exit_price) * position.units
    let trade_result : TradeResult :=
      { position_id := position_id
        entry_price := position.entry_price
        exit_price := exit_price
        units := position.units
        position_type := position.position_type
        pnl := pnl
        return_pct := pnl / (position.entry_price * position.units) * 100
        reason := reason }
    let current_capital := rm.current_capital + pnl
    let position_value := position.entry_price * position.units
    (.ok trade_result,
      { rm with
        trade_history := rm.trade_history ++ [trade_result]
        daily_pnl_today := some (rm.daily_pnl_today.getD 0 + pnl)
        current_capital := current_capital
        peak_capital :=
          if rm.peak_capital < current_capital then current_capital
          else rm.peak_capital
        consecutive_losses :=
          if pnl < 0 then rm.consecutive_losses + 1 else 0
        position_sizer := rm.position_sizer.update_exposure position_value .remove
        positions := dictRemove position_id rm.positions })

/-- A ledger mutation: an open (`add_position`) or a close
(`close_position`, discarding the returned trade dict). -/
inductive LedgerOp where
  | openPos (position_id : String) (entry_price units stop_loss take_profit : ℚ)
      (position_type : PositionType)
  | closePos (position_id : String) (exit_price : ℚ) (reason : String)
deriving Repr

/-- Apply one ledger mutation to the risk manager. -/
def RiskManager.applyOp (rm : RiskManager) : LedgerOp → RiskManager
  | .openPos pid entry units stop tp pt => rm.add_position pid entry units stop tp pt
  | .closePos pid exit_price reason => (rm.close_position pid exit_price reason).2

/-- Apply a sequence of ledger mutations left to right. -/
def RiskManager.runOps (rm : RiskManager) (ops : List LedgerOp) : RiskManager :=
  ops.foldl RiskManager.applyOp rm

/-- Apply a sequence of closes left to right, discarding results. -/
def RiskManager.runCloses (rm : RiskManager) (cs : List (String × ℚ)) : RiskManager :=
  cs.foldl (fun r c => (r.close_position c.1 c.2 "manual").2) rm

/-- Every close in the list succeeds on the evolving state and realizes a
strictly negative pnl. -/
def RiskManager.allLosing (rm : RiskManager) : List (String × ℚ) → Bool
  | [] => true
  | c :: rest =>
    (match (rm.close_position c.1 c.2 "manual").1 with
      | .ok tr => decide (tr.pnl < 0)
      | .error _ => false)
    && RiskManager.allLosing (rm.close_position c.1 c.2 "manual").2 rest

/-- A configuration bundle used for concrete instances: per-position cap 1,
exposure cap 1, ATR multiplier 2, risk/reward floor 2. -/
def sampleConfig : Config := ⟨1, 1, 2, 2⟩

/-- A configuration bundle whose portfolio-exposure cap is 1/2, used to
exercise the exposure bound. -/
def tightConfig : Config := ⟨1, 1/2, 2, 2⟩

/-- A long position entered at 2 with one unit, stop 1, target 4. -/
def samplePosition : Position := ⟨2, 1, 1, 4, .long, 0⟩

/-- A ledger state holding five copies of `samplePosition` under distinct
ids, with no losses recorded yet and the default limits. -/
def rmStreak : RiskManager :=
  { initial_capital := 10000
    current_capital := 10000
    max_drawdown := 2/10
    max_consecutive_losses := 5
    daily_loss_limit := 5/100
    position_sizer := ⟨10000, 1, 1, 2/100, 1/2⟩
    stop_loss_calculator := ⟨2, 1/100, 5/100⟩
    take_profit_calculator := ⟨2, 2⟩
    positions := [("a", samplePosition), ("b", samplePosition), ("c", samplePosition),
      ("d", samplePosition), ("e", samplePosition)]
    trade_history := []
    daily_pnl_today := none
    consecutive_losses := 0
    peak_capital := 10000 }

/-- Five closes of the positions of `rmStreak`, each at price 1, one
below each entry of 2: every close realizes pnl −1. -/
def closesStreak : List (String × ℚ) := [("a", 1), ("b", 1), ("c", 1), ("d", 1), ("e", 1)]

/-- The trade record realized by closing position "a" of `rmStreak` at 1. -/
def trStreak : TradeResult := ⟨"a", 2, 1, 1, .long, -1, -50, "manual"⟩

/-- One open followed by its close, used as a concrete operation sequence. -/
def sampleOps : List LedgerOp :=
  [.openPos "a" 100 10 98 104 .long, .closePos "a" 110 "manual"]

/-- Unfolding lemma: closing an unknown id returns the error dict and the
unchanged state. -/
theorem close_position_of_none (rm : RiskManager) (pid : String) (x : ℚ) (r : String)
    (h : dictLookup pid rm.positions = none) :
    rm.close_position pid x r = (.error "Position not found", rm) := by
  unfold RiskManager.close_position
  rw [h]

/-- Unfolding lemma: closing a held position realizes the pnl and performs
all the bookkeeping updates of risk_manager.py lines 181-223. -/
theorem close_position_of_some (rm : RiskManager) (pid : String) (x : ℚ) (r : String)
    (p : Position) (h : dictLookup pid rm.positions = some p) :
    rm.close_position pid x r =
      (let pnl :=
        match p.position_type with
        | .long => (x - p.entry_price) * p.units
        | .short => (p.entry_price - x) * p.units
      let trade_result : TradeResult :=
        ⟨pid, p.entry_price, x, p.units, p.position_type, pnl,
          pnl / (p.entry_price * p.units) * 100, r⟩
      let current_capital := rm.current_capital + pnl
      (.ok trade_result,
        { rm with
          trade_history := rm.trade_history ++ [trade_result]
          daily_pnl_today := some (rm.daily_pnl_today.getD 0 + pnl)
          current_capital := current_capital
          peak_capital :=
            if rm.peak_capital < current_capital then current_capital
            else rm.peak_capital
          consecutive_losses :=
            if pnl < 0 then rm.consecutive_losses + 1 else 0
          position_sizer :=
            rm.position_sizer.update_exposure (p.entry_price * p.units) .remove
          positions := dictRemove pid rm.positions })) := by
  unfold RiskManager.close_position
  rw [h]

/-- `close_position` never touches `max_consecutive_losses`. -/
theorem close_max_cl_eq (rm : RiskManager) (pid : String) (x : ℚ) (r : String) :
    (rm.close_position pid x r).2.max_consecutive_losses = rm.max_consecutive_losses := by
  cases hl : dictLookup pid rm.positions with
  | none => rw [close_position_of_none rm pid x r hl]
  | some p => rw [close_position_of_some rm pid x r p hl]

/-- A successful close updates the streak counter by the sign of the
realized pnl. -/
theorem close_ok_streak (rm : RiskManager) (pid : String) (x : ℚ) (r : String)
    (tr : TradeResult) (h : (rm.close_position pid x r).1 = .ok tr) :
    (rm.close_position pid x r).2.consecutive_losses
      = if tr.pnl < 0 then rm.consecutive_losses + 1 else 0 := by
  cases hl : dictLookup pid rm.positions with
  | none => rw [close_position_of_none rm pid x r hl] at h; exact absurd h (by simp)
  | some p =>
    rw [close_position_of_some rm pid x r p hl] at h ⊢
    dsimp only at h ⊢
    cases h
    rfl

/-- A run of all-losing closes adds its length to the streak counter and
preserves the configured maximum. -/
theorem allLosing_streak (cs : List (String × ℚ)) : ∀ rm : RiskManager,
    rm.allLosing cs = true →
    (rm.runCloses cs).consecutive_losses = rm.consecutive_losses + cs.length ∧
    (rm.runCloses cs).max_consecutive_losses = rm.max_consecutive_losses := by
  induction cs with
  | nil => intro rm _; exact ⟨rfl, rfl⟩
  | cons c rest ih =>
    intro rm h
    unfold RiskManager.allLosing at h
    rw [Bool.and_eq_true] at h
    obtain ⟨h1, h2⟩ := h
    have hruns : rm.runCloses (c :: rest)
        = ((rm.close_position c.1 c.2 "manual").2).runCloses rest := rfl
    cases hc : (rm.close_position c.1 c.2 "manual").1 with
    | error e => rw [hc] at h1; simp at h1
    | ok tr =>
      rw [hc] at h1
      simp only [decide_eq_true_eq] at h1
      have hcl := close_ok_streak rm c.1 c.2 "manual" tr hc
      rw [if_pos h1] at hcl
      obtain ⟨ihA, ihB⟩ := ih ((rm.close_position c.1 c.2 "manual").2) h2
      rw [hruns]
      constructor
      · rw [ihA, hcl, List.length_cons]; omega
      · rw [ihB, close_max_cl_eq]

/-- The limit gate fails as soon as the streak reaches its maximum,
whatever the drawdown and daily-loss state. -/
theorem check_risk_limits_eq_false (rm : RiskManager)
    (h : rm.max_consecutive_losses ≤ rm.consecutive_losses) :
    rm.check_risk_limits = false := by
  unfold RiskManager.check_risk_limits
  dsimp only
  rw [if_pos h, ite_self]

/-- When the limit gate fails, `evaluate_trade_opportunity` rejects with
the risk-limits reason before reading the signal, price or history. -/
theorem evaluate_rejected_of_limits (rm : RiskManager) (sig : Signal) (p : ℚ)
    (df : PriceFrame) (h : rm.check_risk_limits = false) :
    (rm.evaluate_trade_opportunity sig p df).1 = .rejected .riskLimitsExceeded := by
  unfold RiskManager.evaluate_trade_opportunity
  rw [h]
  rfl

/-- The ATR-based stop for a long position (with its percentage fallback)
sits strictly below any positive entry price. -/
theorem atr_stop_lt_entry_long (c : StopLossCalculator) (entry : ℚ) (df : PriceFrame)
    (he : 0 < entry) (hmin : 0 < c.min_stop_distance) :
    c.atr_based_stop entry df .long < entry := by
  unfold StopLossCalculator.atr_based_stop StopLossCalculator.percentage_based_stop
  cases df.atr with
  | none =>
    dsimp only
    nlinarith
  | some a =>
    dsimp only
    have hd : 0 < max (entry * c.min_stop_distance)
        (min (entry * c.max_stop_distance) (a * c.default_atr_multiplier)) :=
      lt_of_lt_of_le (mul_pos he hmin) (le_max_left _ _)
    linarith

/-- The ATR-based stop for a short position (with its percentage fallback)
sits strictly above any positive entry price. -/
theorem atr_stop_gt_entry_short (c : StopLossCalculator) (entry : ℚ) (df : PriceFrame)
    (he : 0 < entry) (hmin : 0 < c.min_stop_distance) :
    entry < c.atr_based_stop entry df .short := by
  unfold StopLossCalculator.atr_based_stop StopLossCalculator.percentage_based_stop
  cases df.atr with
  | none =>
    dsimp only
    nlinarith
  | some a =>
    dsimp only
    have hd : 0 < max (entry * c.min_stop_distance)
        (min (entry * c.max_stop_distance) (a * c.default_atr_multiplier)) :=
      lt_of_lt_of_le (mul_pos he hmin) (le_max_left _ _)
    linarith

/-- The risk/reward target of a long position lies strictly above the
entry whenever the stop lies strictly below it. -/
theorem rr_target_gt_entry_long (c : TakeProfitCalculator) (entry stop : ℚ)
    (hs : stop < entry) (hrr : 0 < c.min_risk_reward_ratio) :
    entry < c.risk_reward_based_target entry stop .long := by
  unfold TakeProfitCalculator.risk_reward_based_target
  dsimp only
  have : 0 < |entry - stop| := abs_pos.mpr (by linarith)
  nlinarith

/-- The risk/reward target of a short position lies strictly below the
entry whenever the stop lies strictly above it. -/
theorem rr_target_lt_entry_short (c : TakeProfitCalculator) (entry stop : ℚ)
    (hs : entry < stop) (hrr : 0 < c.min_risk_reward_ratio) :
    c.risk_reward_based_target entry stop .short < entry := by
  unfold TakeProfitCalculator.risk_reward_based_target
  dsimp only
  have : 0 < |entry - stop| := abs_pos.mpr (by linarith)
  nlinarith

/-- One trailing-stop update for a long position never lowers the stop. -/
theorem trailing_stop_step_long (current entry stop : ℚ) :
    stop ≤ StopLossCalculator.calculate_trailing_stop current entry stop .long := by
  unfold StopLossCalculator.calculate_trailing_stop
  dsimp only
  split
  · exact le_max_left _ _
  · exact le_refl _

/-- One trailing-stop update for a short position never raises the stop. -/
theorem trailing_stop_step_short (current entry stop : ℚ) :
    StopLossCalculator.calculate_trailing_stop current entry stop .short ≤ stop := by
  unfold StopLossCalculator.calculate_trailing_stop
  dsimp only
  split
  · exact min_le_left _ _
  · exact le_refl _

/-- Iterated trailing-stop updates never lower a long stop. -/
theorem trailing_stop_fold_long (entry : ℚ) (prices : List ℚ) : ∀ stop : ℚ,
    stop ≤ prices.foldl
      (fun s c => StopLossCalculator.calculate_trailing_stop c entry s .long) stop := by
  induction prices with
  | nil => intro stop; exact le_refl _
  | cons c rest ih =>
    intro stop
    exact le_trans (trailing_stop_step_long c entry stop) (ih _)

/-- Iterated trailing-stop updates never raise a short stop. -/
theorem trailing_stop_fold_short (entry : ℚ) (prices : List ℚ) : ∀ stop : ℚ,
    prices.foldl
      (fun s c => StopLossCalculator.calculate_trailing_stop c entry s .short) stop ≤ stop := by
  induction prices with
  | nil => intro stop; exact le_refl _
  | cons c rest ih =>
    intro stop
    exact le_trans (ih _) (trailing_stop_step_short c entry stop)

/-- After `update_exposure`, the exposure is clamped into `[0, 1]`. -/
theorem update_exposure_bounds (s : PositionSizer) (v : ℚ) (a : ExposureAction) :
    0 ≤ (s.update_exposure v a).current_exposure ∧
      (s.update_exposure v a).current_exposure ≤ 1 := by
  unfold PositionSizer.update_exposure
  exact ⟨le_max_left _ _, max_le (by norm_num) (min_le_left _ _)⟩

/-- Reduction of `applyOp` at an open. -/
theorem applyOp_openPos (rm : RiskManager) (pid : String)
    (entry units stop tp : ℚ) (pt : PositionType) :
    rm.applyOp (.openPos pid entry units stop tp pt)
      = rm.add_position pid entry units stop tp pt := rfl

/-- Reduction of `applyOp` at a close. -/
theorem applyOp_closePos (rm : RiskManager) (pid : String) (x : ℚ) (r : String) :
    rm.applyOp (.closePos pid x r) = (rm.close_position pid x r).2 := rfl

/-- `add_position` touches the sizer only through `update_exposure`. -/
theorem add_position_sizer (rm : RiskManager) (pid : String)
    (entry units stop tp : ℚ) (pt : PositionType) :
    (rm.add_position pid entry units stop tp pt).position_sizer
      = rm.position_sizer.update_exposure (entry * units) .add := rfl

/-- `add_position` stores the new position dict under its id. -/
theorem add_position_positions (rm : RiskManager) (pid : String)
    (entry units stop tp : ℚ) (pt : PositionType) :
    (rm.add_position pid entry units stop tp pt).positions
      = dictInsert pid ⟨entry, units, stop, tp, pt, 0⟩ rm.positions := rfl

/-- `update_exposure` never changes `portfolio_value`. -/
theorem update_exposure_portfolio_value (s : PositionSizer) (v : ℚ)
    (a : ExposureAction) :
    (s.update_exposure v a).portfolio_value = s.portfolio_value := rfl

/-- Any single ledger operation leaves the exposure inside `[0, 1]` if it
started there (opens and found closes re-clamp it; a close of an unknown
id leaves it untouched). -/
theorem applyOp_exposure_bounds (rm : RiskManager) (op : LedgerOp)
    (h0 : 0 ≤ rm.position_sizer.current_exposure)
    (h1 : rm.position_sizer.current_exposure ≤ 1) :
    0 ≤ (rm.applyOp op).position_sizer.current_exposure ∧
      (rm.applyOp op).position_sizer.current_exposure ≤ 1 := by
  cases op with
  | openPos pid entry units stop tp pt =>
    rw [applyOp_openPos, add_position_sizer]
    exact update_exposure_bounds _ _ _
  | closePos pid x r =>
    rw [applyOp_closePos]
    cases hl : dictLookup pid rm.positions with
    | none =>
      rw [close_position_of_none rm pid x r hl]
      exact ⟨h0, h1⟩
    | some p =>
      rw [close_position_of_some rm pid x r p hl]
      dsimp only
      exact update_exposure_bounds _ _ _

/-- Exposure stays inside `[0, 1]` along any operation sequence. -/
theorem runOps_exposure_bounds (ops : List LedgerOp) : ∀ rm : RiskManager,
    0 ≤ rm.position_sizer.current_exposure →
    rm.position_sizer.current_exposure ≤ 1 →
    0 ≤ (rm.runOps ops).position_sizer.current_exposure ∧
      (rm.runOps ops).position_sizer.current_exposure ≤ 1 := by
  induction ops with
  | nil => intro rm h0 h1; exact ⟨h0, h1⟩
  | cons op rest ih =>
    intro rm h0 h1
    obtain ⟨g0, g1⟩ := applyOp_exposure_bounds rm op h0 h1
    exact ih (rm.applyOp op) g0 g1

/-- One close never lowers `peak_capital`. -/
theorem close_peak_le (rm : RiskManager) (pid : String) (x : ℚ) (r : String) :
    rm.peak_capital ≤ (rm.close_position pid x r).2.peak_capital := by
  cases hl : dictLookup pid rm.positions with
  | none => rw [close_position_of_none rm pid x r hl]
  | some p =>
    rw [close_position_of_some rm pid x r p hl]
    dsimp only
    split
    · rename_i hlt; exact le_of_lt hlt
    · exact le_refl _

/-- `peak_capital` is non-decreasing along any sequence of closes. -/
theorem runCloses_peak_mono (cs : List (String × ℚ)) : ∀ rm : RiskManager,
    rm.peak_capital ≤ (rm.runCloses cs).peak_capital := by
  induction cs with
  | nil => intro rm; exact le_refl _
  | cons c rest ih =>
    intro rm
    exact le_trans (close_peak_le rm c.1 c.2 "manual") (ih _)

/-- After a successful close, the peak equals the maximum of the old peak
and the updated capital. -/
theorem close_ok_peak (rm : RiskManager) (pid : String) (x : ℚ) (r : String)
    (tr : TradeResult) (h : (rm.close_position pid x r).1 = .ok tr) :
    (rm.close_position pid x r).2.peak_capital
      = max rm.peak_capital (rm.close_position pid x r).2.current_capital := by
  cases hl : dictLookup pid rm.positions with
  | none => rw [close_position_of_none rm pid x r hl] at h; exact absurd h (by simp)
  | some p =>
    rw [close_position_of_some rm pid x r p hl]
    dsimp only
    split
    · rename_i hlt; exact (max_eq_right (le_of_lt hlt)).symm
    · rename_i hge; exact (max_eq_left (not_lt.mp hge)).symm

/-- No ledger operation changes the sizer's `portfolio_value`. -/
theorem applyOp_portfolio_value (rm : RiskManager) (op : LedgerOp) :
    (rm.applyOp op).position_sizer.portfolio_value
      = rm.position_sizer.portfolio_value := by
  cases op with
  | openPos pid entry units stop tp pt =>
    rw [applyOp_openPos, add_position_sizer, update_exposure_portfolio_value]
  | closePos pid x r =>
    rw [applyOp_closePos]
    cases hl : dictLookup pid rm.positions with
    | none => rw [close_position_of_none rm pid x r hl]
    | some p =>
      rw [close_position_of_some rm pid x r p hl]
      dsimp only
      rw [update_exposure_portfolio_value]

/-- The sizer's `portfolio_value` is invariant along any operation sequence. -/
theorem runOps_portfolio_value (ops : List LedgerOp) : ∀ rm : RiskManager,
    (rm.runOps ops).position_sizer.portfolio_value
      = rm.position_sizer.portfolio_value := by
  induction ops with
  | nil => intro rm; rfl
  | cons op rest ih =>
    intro rm
    exact (ih (rm.applyOp op)).trans (applyOp_portfolio_value rm op)

/-- Inserting under a key makes it the key's binding, whether or not the
key was already present. -/
theorem dictLookup_insert (k : String) (v : Position) :
    ∀ l : List (String × Position), dictLookup k (dictInsert k v l) = some v := by
  intro l
  induction l with
  | nil => simp [dictInsert, dictLookup]
  | cons kv rest ih =>
    by_cases hk : kv.1 = k
    · simp [dictInsert, hk, dictLookup]
    · simp [dictInsert, hk, dictLookup, ih]

/-- C1, counterexample: the claim fails as stated.  With
`max_portfolio_exposure = 1/2` and portfolio 10000, a single
`add_position` of notional 10000, made without a `can_open_position`
check, drives `current_exposure` to 1, which exceeds
`max_portfolio_exposure + 1/100` — far beyond any floating tolerance.
`update_exposure` clamps to `[0, 1]`, not to the configured cap. -/
theorem exposure_cap_counterexample :
    ((RiskManager.mk0 10000 tightConfig).add_position "p1" 100 100 98 104
        .long).position_sizer.current_exposure = 1 ∧
    ((RiskManager.mk0 10000 tightConfig).add_position "p1" 100 100 98 104
        .long).position_sizer.max_portfolio_exposure = 1/2 ∧
    (1:ℚ)/2 + 1/100 < 1 := by
  norm_num [RiskManager.mk0, PositionSizer.mk0, tightConfig,
    RiskManager.add_position, PositionSizer.update_exposure]

/-- C1 (amended): for every sequence of open and close operations on the
ledger, starting from any state whose exposure lies in `[0, 1]`,
`current_exposure` never goes negative and never exceeds 1.  The
`max_portfolio_exposure + ε` bound of the original claim does not hold
for sequences that call `add_position` without a preceding
`can_open_position` check (see `exposure_cap_counterexample`). -/
theorem exposure_within_unit_interval (rm : RiskManager) (ops : List LedgerOp)
    (h0 : 0 ≤ rm.position_sizer.current_exposure)
    (h1 : rm.position_sizer.current_exposure ≤ 1) :
    0 ≤ (rm.runOps ops).position_sizer.current_exposure ∧
      (rm.runOps ops).position_sizer.current_exposure ≤ 1 :=
  runOps_exposure_bounds ops rm h0 h1

/-- C1, witness: the amended bound evaluated on a fresh ledger running
one open and one close. -/
theorem exposure_within_unit_interval_witness :
    (0 ≤ (RiskManager.mk0 10000 sampleConfig).position_sizer.current_exposure ∧
      (RiskManager.mk0 10000 sampleConfig).position_sizer.current_exposure ≤ 1) ∧
    (0 ≤ ((RiskManager.mk0 10000 sampleConfig).runOps
        sampleOps).position_sizer.current_exposure ∧
      ((RiskManager.mk0 10000 sampleConfig).runOps
        sampleOps).position_sizer.current_exposure ≤ 1) :=
  ⟨⟨by norm_num [RiskManager.mk0, PositionSizer.mk0],
    by norm_num [RiskManager.mk0, PositionSizer.mk0]⟩,
    exposure_within_unit_interval (RiskManager.mk0 10000 sampleConfig) sampleOps
      (by norm_num [RiskManager.mk0, PositionSizer.mk0])
      (by norm_num [RiskManager.mk0, PositionSizer.mk0])⟩

/-- C2, counterexample: the claim fails as stated for opens.  Calling
`add_position` twice with id "p1" raises no error (the operation has no
error outcome at all): the second call silently replaces the stored
position — one entry remains, holding the second call's values — and the
position's notional is added to exposure a second time (3/10 instead of
the 2/10 a replacement-aware ledger would hold). -/
theorem duplicate_id_counterexample :
    dictLookup "p1" (((RiskManager.mk0 10000 sampleConfig).add_position "p1" 100 10
        98 104 .long).add_position "p1" 200 10 196 208 .long).positions
      = some ⟨200, 10, 196, 208, .long, 0⟩ ∧
    ((((RiskManager.mk0 10000 sampleConfig).add_position "p1" 100 10 98 104
        .long).add_position "p1" 200 10 196 208 .long).positions).length = 1 ∧
    (((RiskManager.mk0 10000 sampleConfig).add_position "p1" 100 10 98 104
        .long).add_position "p1" 200 10 196 208 .long).position_sizer.current_exposure
      = 3/10 := by
  norm_num [RiskManager.mk0, PositionSizer.mk0, sampleConfig,
    RiskManager.add_position, PositionSizer.update_exposure, dictInsert, dictLookup]

/-- C2 (amended): closing an id that is not currently open fails with the
`'Position not found'` error and leaves the state unchanged — not a
silent no-op.  Opening, however, performs no duplicate-id check:
`add_position` with any id — including one currently open — silently
stores the new position as the id's binding instead of failing with a
DuplicateId error. -/
theorem close_errors_open_overwrites (rm : RiskManager) (pid : String) (x : ℚ)
    (r : String) (entry units stop tp : ℚ) (pt : PositionType)
    (h : dictLookup pid rm.positions = none) :
    rm.close_position pid x r = (.error "Position not found", rm) ∧
    ∀ rm' : RiskManager,
      dictLookup pid (rm'.add_position pid entry units stop tp pt).positions
        = some ⟨entry, units, stop, tp, pt, 0⟩ :=
  ⟨close_position_of_none rm pid x r h,
    fun rm' => by rw [add_position_positions]; exact dictLookup_insert pid _ rm'.positions⟩

/-- C2, witness: the amended behavior evaluated on a fresh ledger and the
id "a". -/
theorem close_errors_open_overwrites_witness :
    dictLookup "a" (RiskManager.mk0 10000 sampleConfig).positions = none ∧
    (RiskManager.mk0 10000 sampleConfig).close_position "a" 1 "manual"
      = (.error "Position not found", RiskManager.mk0 10000 sampleConfig) ∧
    dictLookup "a" ((RiskManager.mk0 10000 sampleConfig).add_position "a" 2 1 1 4
        .long).positions = some ⟨2, 1, 1, 4, .long, 0⟩ := by
  have h : dictLookup "a" (RiskManager.mk0 10000 sampleConfig).positions = none := by
    simp [RiskManager.mk0, dictLookup]
  obtain ⟨hA, hB⟩ :=
    close_errors_open_overwrites (RiskManager.mk0 10000 sampleConfig) "a" 1 "manual"
      2 1 1 4 .long h
  exact ⟨h, hA, hB _⟩

/-- C3: for every entry price > 0, every price history, and any
configuration with a positive risk/reward floor (which includes the
default), the default ATR-method stop-loss (with its percentage
fallback) and the risk/reward take-profit satisfy
stop < entry < target for a long position and
target < entry < stop for a short position. -/
theorem stop_target_ordering (cfg : Config) (entry : ℚ) (df : PriceFrame)
    (he : 0 < entry) (hrr : 0 < cfg.min_risk_reward_ratio) :
    ((StopLossCalculator.mk0 cfg).calculate_stop_loss entry df .long < entry ∧
      entry < (TakeProfitCalculator.mk0 cfg).calculate_take_profit entry
        ((StopLossCalculator.mk0 cfg).calculate_stop_loss entry df .long) .long) ∧
    (entry < (StopLossCalculator.mk0 cfg).calculate_stop_loss entry df .short ∧
      (TakeProfitCalculator.mk0 cfg).calculate_take_profit entry
        ((StopLossCalculator.mk0 cfg).calculate_stop_loss entry df .short) .short
        < entry) := by
  have hmin : 0 < (StopLossCalculator.mk0 cfg).min_stop_distance := by
    norm_num [StopLossCalculator.mk0]
  have hL := atr_stop_lt_entry_long (StopLossCalculator.mk0 cfg) entry df he hmin
  have hS := atr_stop_gt_entry_short (StopLossCalculator.mk0 cfg) entry df he hmin
  have hrr' : 0 < (TakeProfitCalculator.mk0 cfg).min_risk_reward_ratio := hrr
  exact ⟨⟨hL, rr_target_gt_entry_long _ _ _ hL hrr'⟩,
    ⟨hS, rr_target_lt_entry_short _ _ _ hS hrr'⟩⟩

/-- C3, witness: the ordering evaluated at entry 100 with an ATR-less
history (exercising the percentage fallback) under `sampleConfig`. -/
theorem stop_target_ordering_witness :
    (0:ℚ) < 100 ∧ 0 < sampleConfig.min_risk_reward_ratio ∧
    (((StopLossCalculator.mk0 sampleConfig).calculate_stop_loss 100 ⟨none⟩ .long < 100 ∧
      (100:ℚ) < (TakeProfitCalculator.mk0 sampleConfig).calculate_take_profit 100
        ((StopLossCalculator.mk0 sampleConfig).calculate_stop_loss 100 ⟨none⟩ .long) .long) ∧
    ((100:ℚ) < (StopLossCalculator.mk0 sampleConfig).calculate_stop_loss 100 ⟨none⟩ .short ∧
      (TakeProfitCalculator.mk0 sampleConfig).calculate_take_profit 100
        ((StopLossCalculator.mk0 sampleConfig).calculate_stop_loss 100 ⟨none⟩ .short) .short
        < 100)) :=
  ⟨by norm_num, by norm_num [sampleConfig],
    stop_target_ordering sampleConfig 100 ⟨none⟩ (by norm_num)
      (by norm_num [sampleConfig])⟩

/-- C4: `calculate_trailing_stop` never loosens a stop: for every current
price, entry price > 0, and existing stop, the returned long stop is ≥
the existing stop and the returned short stop is ≤ it; hence iterated
updates over any price sequence produce a non-decreasing long stop
(non-increasing short stop). -/
theorem trailing_stop_never_loosens (current entry stop : ℚ) (prices : List ℚ)
    (he : 0 < entry) :
    stop ≤ StopLossCalculator.calculate_trailing_stop current entry stop .long ∧
    StopLossCalculator.calculate_trailing_stop current entry stop .short ≤ stop ∧
    stop ≤ prices.foldl
      (fun s c => StopLossCalculator.calculate_trailing_stop c entry s .long) stop ∧
    prices.foldl
      (fun s c => StopLossCalculator.calculate_trailing_stop c entry s .short) stop
      ≤ stop :=
  ⟨trailing_stop_step_long current entry stop,
    trailing_stop_step_short current entry stop,
    trailing_stop_fold_long entry prices stop,
    trailing_stop_fold_short entry prices stop⟩

/-- C4, witness: the ratchet evaluated at entry 100, stop 98, over the
favorable price path 103, 105, 110. -/
theorem trailing_stop_never_loosens_witness :
    (0:ℚ) < 100 ∧
    ((98:ℚ) ≤ StopLossCalculator.calculate_trailing_stop 103 100 98 .long ∧
    StopLossCalculator.calculate_trailing_stop 103 100 98 .short ≤ 98 ∧
    (98:ℚ) ≤ [103, 105, 110].foldl
      (fun s c => StopLossCalculator.calculate_trailing_stop c 100 s .long) 98 ∧
    [103, 105, 110].foldl
      (fun s c => StopLossCalculator.calculate_trailing_stop c 100 s .short) 98
      ≤ 98) :=
  ⟨by norm_num, trailing_stop_never_loosens 103 100 98 [103, 105, 110] (by norm_num)⟩

/-- C5: after any 5 consecutive losing closes with
`max_consecutive_losses = 5`, the next `evaluate_trade_opportunity` call
returns the risk-limits-exceeded rejection, regardless of the signal,
current price, or price history supplied. -/
theorem evaluate_rejects_after_losing_streak (rm : RiskManager)
    (cs : List (String × ℚ)) (hmax : rm.max_consecutive_losses = 5)
    (hlen : cs.length = 5) (hlosing : rm.allLosing cs = true)
    (sig : Signal) (p : ℚ) (df : PriceFrame) :
    ((rm.runCloses cs).evaluate_trade_opportunity sig p df).1
      = .rejected .riskLimitsExceeded := by
  obtain ⟨hA, hB⟩ := allLosing_streak cs rm hlosing
  apply evaluate_rejected_of_limits
  apply check_risk_limits_eq_false
  rw [hA, hB, hmax, hlen]
  omega

/-- C5, witness: `rmStreak` holds five positions entered at 2; closing
all five at 1 realizes five losing trades, after which a buy signal of
full strength at price 100 is rejected for risk limits. -/
theorem evaluate_rejects_after_losing_streak_witness :
    rmStreak.max_consecutive_losses = 5 ∧
    closesStreak.length = 5 ∧
    rmStreak.allLosing closesStreak = true ∧
    ((rmStreak.runCloses closesStreak).evaluate_trade_opportunity
        ⟨.buy, 1⟩ 100 ⟨none⟩).1 = .rejected .riskLimitsExceeded :=
  ⟨rfl, rfl,
    by norm_num [rmStreak, closesStreak, samplePosition, RiskManager.allLosing,
      RiskManager.close_position, dictLookup, dictRemove, PositionSizer.update_exposure],
    evaluate_rejects_after_losing_streak rmStreak closesStreak rfl rfl
      (by norm_num [rmStreak, closesStreak, samplePosition, RiskManager.allLosing,
        RiskManager.close_position, dictLookup, dictRemove,
        PositionSizer.update_exposure])
      ⟨.buy, 1⟩ 100 ⟨none⟩⟩

/-- C6: fixed-fractional sizing with `risk_per_trade = 0.02`, signal
strength 1, portfolio 10000, entry 100, stop 98 yields
`risk_amount = 200`; the pre-cap dollar amount 10000 (risk 200 divided
by the price-risk fraction 2/100) is then clamped by
`portfolio_value × max_position_size` and by the remaining exposure
capacity, for every configuration of the two caps. -/
theorem fixed_fractional_scenario (mps mpe : ℚ) :
    ((PositionSizer.mk 10000 mps mpe (2/100) 0).fixed_fractional_sizing
        1 100 98).risk_amount = 200 ∧
    ((PositionSizer.mk 10000 mps mpe (2/100) 0).fixed_fractional_sizing
        1 100 98).dollar_amount
      = min (min 10000 (10000 * mps)) (mpe * 10000) := by
  unfold PositionSizer.fixed_fractional_sizing
  norm_num

/-- C7: for every close of an open position, a strictly negative realized
pnl increments `consecutive_losses` by exactly 1, and any non-losing
close (pnl ≥ 0, including zero) resets it to 0. -/
theorem close_updates_streak (rm : RiskManager) (pid : String) (x : ℚ)
    (r : String) (tr : TradeResult)
    (h : (rm.close_position pid x r).1 = .ok tr) :
    (tr.pnl < 0 →
      (rm.close_position pid x r).2.consecutive_losses
        = rm.consecutive_losses + 1) ∧
    (0 ≤ tr.pnl →
      (rm.close_position pid x r).2.consecutive_losses = 0) := by
  have hc := close_ok_streak rm pid x r tr h
  constructor
  · intro hneg; rw [hc, if_pos hneg]
  · intro hpos; rw [hc, if_neg (not_lt.mpr hpos)]

/-- C7, witness: closing position "a" of `rmStreak` (entered at 2) at
price 1 realizes pnl −1 and raises the streak from 0 to 1. -/
theorem close_updates_streak_witness :
    (rmStreak.close_position "a" 1 "manual").1 = .ok trStreak ∧
    trStreak.pnl < 0 ∧
    (rmStreak.close_position "a" 1 "manual").2.consecutive_losses
      = rmStreak.consecutive_losses + 1 := by
  have h : (rmStreak.close_position "a" 1 "manual").1 = .ok trStreak := by
    norm_num [rmStreak, samplePosition, trStreak, RiskManager.close_position, dictLookup]
  have hneg : trStreak.pnl < 0 := by norm_num [trStreak]
  exact ⟨h, hneg, (close_updates_streak rmStreak "a" 1 "manual" trStreak h).1 hneg⟩

/-- C8: `peak_capital` is non-decreasing across every sequence of close
operations, and after each successful close it equals the maximum of its
previous value and the updated `current_capital`. -/
theorem peak_capital_monotone (rm : RiskManager) (cs : List (String × ℚ)) :
    rm.peak_capital ≤ (rm.runCloses cs).peak_capital ∧
    ∀ (pid : String) (x : ℚ) (r : String) (tr : TradeResult),
      (rm.close_position pid x r).1 = .ok tr →
      (rm.close_position pid x r).2.peak_capital
        = max rm.peak_capital (rm.close_position pid x r).2.current_capital :=
  ⟨runCloses_peak_mono cs rm, fun pid x r tr h => close_ok_peak rm pid x r tr h⟩

/-- C8, witness: the peak of `rmStreak` survives the five losing closes,
and the first close's peak equals the max of the old peak and the new
capital. -/
theorem peak_capital_monotone_witness :
    rmStreak.peak_capital ≤ (rmStreak.runCloses closesStreak).peak_capital ∧
    (rmStreak.close_position "a" 1 "manual").1 = .ok trStreak ∧
    (rmStreak.close_position "a" 1 "manual").2.peak_capital
      = max rmStreak.peak_capital
          (rmStreak.close_position "a" 1 "manual").2.current_capital := by
  have h : (rmStreak.close_position "a" 1 "manual").1 = .ok trStreak := by
    norm_num [rmStreak, samplePosition, trStreak, RiskManager.close_position, dictLookup]
  exact ⟨(peak_capital_monotone rmStreak closesStreak).1, h,
    (peak_capital_monotone rmStreak closesStreak).2 "a" 1 "manual" trStreak h⟩

/-- C9: `evaluate_trade_opportunity` is read-only: for every signal,
price, and history, whether it approves or rejects, the returned state —
open positions, trade history, daily pnl, capital, peak, streak, and the
sizer's exposure — is the input state, unchanged. -/
theorem evaluate_state_unchanged (rm : RiskManager) (sig : Signal) (p : ℚ)
    (df : PriceFrame) :
    (rm.evaluate_trade_opportunity sig p df).2 = rm := by
  unfold RiskManager.evaluate_trade_opportunity
  dsimp only
  split_ifs <;> rfl

/-- C10: the sizer's `portfolio_value` is frozen at the initial capital
passed at construction: across every sequence of opens and closes (which
update the ledger's `current_capital` on close), the sizer still carries
the initial capital, so sizing, exposure increments and
`can_open_position` are computed relative to initial — not current —
capital. -/
theorem sizer_portfolio_value_frozen (initial_capital : ℚ) (cfg : Config)
    (ops : List LedgerOp) :
    ((RiskManager.mk0 initial_capital cfg).runOps ops).position_sizer.portfolio_value
      = initial_capital :=
  runOps_portfolio_value ops (RiskManager.mk0 initial_capital cfg)
